import Mathlib

/-!
Verification of the conversation-history core of the chatGPT-discord-bot
repository (src/src/message_history.py, src/src/bot.py), as a shallow
embedding in Lean 4.

Modelling conventions:
- Python `str` is Lean `String`; Python `int` is Lean `Int` (arbitrary
  precision, signed); Python `list` is Lean `List`.
- A `UsernamesMapper` (an abstract class with one method
  `get_username(user_id) -> str`) is embedded as a function `Int → String`.
- Python exceptions are embedded with explicit error results (`PyError`).
- The Redis backend is embedded as a partial map from string keys to the
  stored JSON payloads (`Store`); `json.dumps`/`json.loads` of the Python
  standard library are external to the repository and are modelled at the
  level of the JSON structure they serialize.
-/

/-- Errors raised by the embedded Python code. `typeError` is raised by
`len()` applied to a non-sized object (here: a coroutine); `indexError` by
`list.pop(0)` on an empty list; `corruptRecord` stands for the exceptions of
`json.loads` / pydantic validation on a malformed stored payload;
`emptyHistory` is the spec's `EmptyHistory` error. -/
inductive PyError where
  | typeError
  | indexError
  | corruptRecord
  | emptyHistory
  deriving DecidableEq, Repr

/-- Embedding of `HistoryMessage` (src/src/message_history.py:26-33):
one message sent by one user. -/
structure HistoryMessage where
  author_id : Int
  body : String
  deriving DecidableEq, Repr

/-- Embedding of `ConversationHistory` (src/src/message_history.py:43-50). -/
structure ConversationHistory where
  interacting_user_id : Int
  messages : List HistoryMessage
  deriving DecidableEq, Repr

/-- Embedding of `HistoryMessage.as_transcript_str`
(src/src/message_history.py:35-41): renders `f"{username}: {body}"` where
`username` is obtained from the usernames mapper. -/
def as_transcript_str (resolver : Int → String) (m : HistoryMessage) : String :=
  resolver m.author_id ++ ": " ++ m.body

/-- Embedding of `ConversationHistory.as_transcript_lines`
(src/src/message_history.py:52-63): renders every message in order. -/
def as_transcript_lines (resolver : Int → String) (msgs : List HistoryMessage) :
    List String :=
  msgs.map (as_transcript_str resolver)

/-- Embedding of `ConversationHistory.all_messages_transcript_len`
(src/src/message_history.py:65-76): starts a counter at 0 and adds the
length of each transcript line. -/
def all_messages_transcript_len (resolver : Int → String)
    (msgs : List HistoryMessage) : Nat :=
  (as_transcript_lines resolver msgs).foldl (fun count line => count + line.length) 0

/-- Embedding of `NullUsernamesMapper.get_username` (src/src/bot.py:31-33):
returns the empty string for every user id. -/
def null_usernames_mapper : Int → String := fun _ => ""

/-- Result of running the trim loop of `MessageHistoryRepo.append_message`
(src/src/message_history.py:183-188). Because the loop body mutates
`history.messages` in place before it can raise, an escaped exception is
recorded together with the in-memory message list at the moment the
exception was raised. -/
inductive TrimResult where
  | ok (msgs : List HistoryMessage)
  | raised (e : PyError) (msgs : List HistoryMessage)
  deriving DecidableEq, Repr

/-- Embedding of the trim loop of `MessageHistoryRepo.append_message`
(src/src/message_history.py:183-188):

    history_len = await history.all_messages_transcript_len(self.usernames_mapper)
    while history_len > max_conversation_characters:
        removed_msg = history.messages.pop(0)
        history_len -= len(removed_msg.as_transcript_str(self.usernames_mapper))

The loop body never completes an iteration: `as_transcript_str` is a
coroutine function that is called without `await`, so `len(...)` is applied
to a coroutine object and raises `TypeError`. Consequently the loop is
equivalent to a single test of its condition: if the rendered length is
within the budget the message list is returned unchanged, otherwise the
first iteration pops index 0 (raising `IndexError` if the list is empty)
and then raises `TypeError`. -/
def trim_loop (resolver : Int → String) (max_conversation_characters : Int)
    (msgs : List HistoryMessage) : TrimResult :=
  if (all_messages_transcript_len resolver msgs : Int) > max_conversation_characters then
    match msgs with
    | [] => .raised .indexError []
    | _ :: rest => .raised .typeError rest
  else
    .ok msgs

/-- Running the trim loop a second time on the outcome of a first run: when
the first run raises, the exception propagates and the second run is never
reached; when the first run returns a list, the loop is entered again on
that list. -/
def trim_loop_twice (resolver : Int → String) (max_conversation_characters : Int)
    (msgs : List HistoryMessage) : TrimResult :=
  match trim_loop resolver max_conversation_characters msgs with
  | .ok msgs' => trim_loop resolver max_conversation_characters msgs'
  | .raised e s => .raised e s

/-- Decimal digit character, as produced by Python's `str()` on an `int`. -/
def digitChar : Nat → Char
  | 0 => '0' | 1 => '1' | 2 => '2' | 3 => '3' | 4 => '4'
  | 5 => '5' | 6 => '6' | 7 => '7' | 8 => '8' | 9 => '9'
  | _ => '*'

/-- Fuel-indexed decimal rendering of a natural number (most significant
digit first); the fuel argument only makes the recursion structural and is
irrelevant as long as it exceeds the number being rendered. -/
def natDigits : Nat → Nat → List Char
  | 0, _ => []
  | fuel + 1, n =>
    if n < 10 then [digitChar n]
    else natDigits fuel (n / 10) ++ [digitChar (n % 10)]

/-- Decimal rendering of a natural number, as Python's `str()`. -/
def pyNatChars (n : Nat) : List Char :=
  natDigits (n + 1) n

/-- Character sequence of Python's `str()` on an `int`: an optional leading
minus sign followed by the decimal digits of the absolute value. -/
def pyIntChars (i : Int) : List Char :=
  if i < 0 then '-' :: pyNatChars i.natAbs else pyNatChars i.toNat

/-- Embedding of the f-string interpolation `f"{i}"` of a Python `int`. -/
def pyStr (i : Int) : String :=
  String.mk (pyIntChars i)

/-- Embedding of `MessageHistoryRepo.get_conversation_history_key`
(src/src/message_history.py:108-115): renders
`f"conversation-history:interacting-user-id:{interacting_user_id}"`. -/
def get_conversation_history_key (interacting_user_id : Int) : String :=
  "conversation-history:interacting-user-id:" ++ pyStr interacting_user_id

/-- Embedding of `MessageHistoryRepo.get_conversation_history_lock_key`
(src/src/message_history.py:117-124): renders
`f"conversation-history:interacting-user-id:{interacting_user_id}:lock"`. -/
def get_conversation_history_lock_key (interacting_user_id : Int) : String :=
  "conversation-history:interacting-user-id:" ++ pyStr interacting_user_id ++ ":lock"

/-- JSON values, the information content of the strings produced and
consumed by `json.dumps` / `json.loads` (Python standard library, external
to the repository, modelled structurally). -/
inductive Json where
  | jint (n : Int)
  | jstr (s : String)
  | jarr (items : List Json)
  | jobj (fields : List (String × Json))

/-- The Redis backend as seen through `GET`/`SET` on string keys: a partial
map from keys to stored JSON payloads. -/
def Store : Type := String → Option Json

/-- Dictionary lookup on the fields of a JSON object. -/
def jlookup : List (String × Json) → String → Option Json
  | [], _ => none
  | (k, v) :: rest, key => if k = key then some v else jlookup rest key

/-- Embedding of pydantic's `.dict()` on a `HistoryMessage`
(the payload serialized by `json.dumps` in `save_conversation_history`). -/
def HistoryMessage.dict (m : HistoryMessage) : Json :=
  .jobj [("author_id", .jint m.author_id), ("body", .jstr m.body)]

/-- Embedding of pydantic's `.dict()` on a `ConversationHistory`
(src/src/message_history.py:151). -/
def ConversationHistory.dict (h : ConversationHistory) : Json :=
  .jobj [("interacting_user_id", .jint h.interacting_user_id),
         ("messages", .jarr (h.messages.map HistoryMessage.dict))]

/-- Embedding of pydantic validation of one element of the `messages` list
in `ConversationHistory(**parsed_json)` (src/src/message_history.py:143):
the element must be an object with an integer `author_id` field and a
string `body` field. -/
def parseMessage (j : Json) : Option HistoryMessage :=
  match j with
  | .jobj fields =>
    match jlookup fields "author_id", jlookup fields "body" with
    | some (.jint a), some (.jstr b) => some ⟨a, b⟩
    | _, _ => none
  | _ => none

/-- Validation of the `messages` list: every element must parse. -/
def parseMessages : List Json → Option (List HistoryMessage)
  | [] => some []
  | j :: rest =>
    match parseMessage j, parseMessages rest with
    | some m, some ms => some (m :: ms)
    | _, _ => none

/-- Embedding of `json.loads` plus `ConversationHistory(**parsed_json)`
(src/src/message_history.py:141-143): the stored payload must be an object
with an integer `interacting_user_id` field and a list-valued `messages`
field whose elements all validate. -/
def parseHistory (j : Json) : Option ConversationHistory :=
  match j with
  | .jobj fields =>
    match jlookup fields "interacting_user_id", jlookup fields "messages" with
    | some (.jint uid), some (.jarr items) =>
      match parseMessages items with
      | some msgs => some ⟨uid, msgs⟩
      | none => none
    | _, _ => none
  | _ => none

/-- Embedding of `MessageHistoryRepo.get_conversation_history`
(src/src/message_history.py:126-143): `GET` on the derived key; an absent
key yields `None`; a present payload is deserialized, raising (modelled as
`corruptRecord`) if it does not validate. -/
def get_conversation_history (store : Store) (interacting_user_id : Int) :
    Except PyError (Option ConversationHistory) :=
  match store (get_conversation_history_key interacting_user_id) with
  | none => .ok none
  | some j =>
    match parseHistory j with
    | none => .error .corruptRecord
    | some h => .ok (some h)

/-- Embedding of `MessageHistoryRepo.save_conversation_history`
(src/src/message_history.py:145-153): `SET` of the serialized history under
the key derived from the history's own `interacting_user_id`. -/
def save_conversation_history (store : Store) (h : ConversationHistory) : Store :=
  fun k =>
    if k = get_conversation_history_key h.interacting_user_id then some h.dict
    else store k

/-- Embedding of lines 170-177 of `MessageHistoryRepo.append_message`: load
the stored history and fall back to a freshly initialized empty history for
this user when none is stored. -/
def load_or_init (store : Store) (interacting_user_id : Int) :
    Except PyError ConversationHistory :=
  match get_conversation_history store interacting_user_id with
  | .error e => .error e
  | .ok none => .ok ⟨interacting_user_id, []⟩
  | .ok (some h) => .ok h

/-- Embedding of `MessageHistoryRepo.append_message`
(src/src/message_history.py:155-197), the body of the critical section run
while the per-user Redis lock is held: load or initialize the history,
append the new message, run the trim loop, save, and return the saved
history together with the updated store. A raised exception aborts before
the save. -/
def append_message (store : Store) (interacting_user_id : Int)
    (msg : HistoryMessage) (max_conversation_characters : Int)
    (resolver : Int → String) : Except PyError (Store × ConversationHistory) :=
  match load_or_init store interacting_user_id with
  | .error e => .error e
  | .ok history =>
    match trim_loop resolver max_conversation_characters (history.messages ++ [msg]) with
    | .raised e _ => .error e
    | .ok trimmed =>
      let h : ConversationHistory := ⟨history.interacting_user_id, trimmed⟩
      .ok (save_conversation_history store h, h)

/-- Replace the body of the last message of a list, keeping its author;
returns `none` exactly when the list is empty. -/
def set_last_body (msgs : List HistoryMessage) (new_body : String) :
    Option (List HistoryMessage) :=
  match msgs with
  | [] => none
  | m :: rest =>
    match set_last_body rest new_body with
    | none => some [⟨m.author_id, new_body⟩]
    | some rest' => some (m :: rest')

/-- Modelled from the spec: `replace_last_body(new_body)` on a
`ConversationHistory` "mutates the body of the final message in place" and
"fails with `EmptyHistory` if `messages` is empty" (spec §4.3). The method
itself is absent from the sources; only its inline use survives at
src/src/bot.py:150 (`history.messages[-1].body = ai_resp`). -/
def replace_last_body (h : ConversationHistory) (new_body : String) :
    Except PyError ConversationHistory :=
  match set_last_body h.messages new_body with
  | none => .error .emptyHistory
  | some msgs => .ok ⟨h.interacting_user_id, msgs⟩

/-- Decimal value of a digit string; proof-side inverse of `natDigits`. -/
def decodeDigits (ds : List Char) : Nat :=
  ds.foldl (fun a c => 10 * a + (c.toNat - 48)) 0

/-- The backend state before anything has been stored. -/
def empty_store : Store := fun _ => none

theorem decodeDigits_append (ds : List Char) (c : Char) :
    decodeDigits (ds ++ [c]) = 10 * decodeDigits ds + (c.toNat - 48) := by
  simp [decodeDigits, List.foldl_append]

theorem digitChar_toNat {n : Nat} (h : n < 10) : (digitChar n).toNat - 48 = n := by
  interval_cases n <;> rfl

theorem digitChar_range {n : Nat} (h : n < 10) :
    48 ≤ (digitChar n).toNat ∧ (digitChar n).toNat ≤ 57 := by
  interval_cases n <;> decide

theorem decodeDigits_natDigits :
    ∀ fuel n, n < fuel → decodeDigits (natDigits fuel n) = n := by
  intro fuel
  induction fuel with
  | zero => intro n h; omega
  | succ fuel ih =>
    intro n h
    by_cases h10 : n < 10
    · simp [natDigits, if_pos h10, decodeDigits, digitChar_toNat h10]
    · have hdiv : n / 10 < fuel := by
        have := Nat.div_lt_self (by omega : 0 < n) (by omega : 1 < 10)
        omega
      have hmod : n % 10 < 10 := Nat.mod_lt _ (by omega)
      rw [natDigits, if_neg h10, decodeDigits_append, ih _ hdiv, digitChar_toNat hmod]
      omega

theorem natDigits_mem_range :
    ∀ fuel n c, n < fuel → c ∈ natDigits fuel n → 48 ≤ c.toNat ∧ c.toNat ≤ 57 := by
  intro fuel
  induction fuel with
  | zero => intro n c h; omega
  | succ fuel ih =>
    intro n c h hc
    by_cases h10 : n < 10
    · rw [natDigits, if_pos h10] at hc
      rcases List.mem_singleton.mp hc with rfl
      exact digitChar_range h10
    · rw [natDigits, if_neg h10] at hc
      have hdiv : n / 10 < fuel := by
        have := Nat.div_lt_self (by omega : 0 < n) (by omega : 1 < 10)
        omega
      rcases List.mem_append.mp hc with hl | hr
      · exact ih _ c hdiv hl
      · rcases List.mem_singleton.mp hr with rfl
        exact digitChar_range (Nat.mod_lt _ (by omega))

theorem pyNatChars_mem_range {n : Nat} {c : Char} (hc : c ∈ pyNatChars n) :
    48 ≤ c.toNat ∧ c.toNat ≤ 57 :=
  natDigits_mem_range _ n c (Nat.lt_succ_self n) hc

theorem pyNatChars_inj {a b : Nat} (h : pyNatChars a = pyNatChars b) : a = b := by
  have ha := decodeDigits_natDigits (a + 1) a (Nat.lt_succ_self a)
  have hb := decodeDigits_natDigits (b + 1) b (Nat.lt_succ_self b)
  rw [show natDigits (a+1) a = pyNatChars a from rfl, h] at ha
  rw [show natDigits (b+1) b = pyNatChars b from rfl] at hb
  omega

theorem pyIntChars_mem {i : Int} {c : Char} (hc : c ∈ pyIntChars i) :
    c = '-' ∨ (48 ≤ c.toNat ∧ c.toNat ≤ 57) := by
  unfold pyIntChars at hc
  by_cases hi : i < 0
  · rw [if_pos hi] at hc
    rcases List.mem_cons.mp hc with rfl | hmem
    · left; rfl
    · right; exact pyNatChars_mem_range hmem
  · rw [if_neg hi] at hc
    right; exact pyNatChars_mem_range hc

theorem pyIntChars_inj {i j : Int} (h : pyIntChars i = pyIntChars j) : i = j := by
  unfold pyIntChars at h
  by_cases hi : i < 0 <;> by_cases hj : j < 0
  · rw [if_pos hi, if_pos hj] at h
    have htail : pyNatChars i.natAbs = pyNatChars j.natAbs := by
      have := congrArg List.tail h
      simpa using this
    have := pyNatChars_inj htail
    omega
  · rw [if_pos hi, if_neg hj] at h
    have : '-' ∈ pyNatChars j.toNat := h ▸ List.mem_cons_self '-' _
    rcases pyNatChars_mem_range this with ⟨h1, _⟩
    simp at h1
  · rw [if_neg hi, if_pos hj] at h
    have : '-' ∈ pyNatChars i.toNat := h ▸ List.mem_cons_self '-' _
    rcases pyNatChars_mem_range this with ⟨h1, _⟩
    simp at h1
  · rw [if_neg hi, if_neg hj] at h
    have := pyNatChars_inj h
    omega

theorem data_mk (l : List Char) : (String.mk l).data = l := rfl

theorem key_data (i : Int) :
    (get_conversation_history_key i).data =
      "conversation-history:interacting-user-id:".data ++ pyIntChars i := by
  simp [get_conversation_history_key, String.data_append, pyStr, data_mk]

theorem lock_key_data (i : Int) :
    (get_conversation_history_lock_key i).data =
      "conversation-history:interacting-user-id:".data ++ (pyIntChars i ++ ":lock".data) := by
  simp [get_conversation_history_lock_key, String.data_append, pyStr, data_mk,
    List.append_assoc]

theorem parseMessage_dict (m : HistoryMessage) : parseMessage m.dict = some m := rfl

theorem parseMessages_map (msgs : List HistoryMessage) :
    parseMessages (msgs.map HistoryMessage.dict) = some msgs := by
  induction msgs with
  | nil => rfl
  | cons m rest ih => simp [parseMessages, parseMessage_dict, ih]

theorem parseHistory_dict (h : ConversationHistory) : parseHistory h.dict = some h := by
  cases h with
  | mk uid msgs =>
    simp [parseHistory, ConversationHistory.dict, jlookup, parseMessages_map]

theorem set_last_body_append (ms : List HistoryMessage) (m : HistoryMessage)
    (nb : String) :
    set_last_body (ms ++ [m]) nb = some (ms ++ [⟨m.author_id, nb⟩]) := by
  induction ms with
  | nil => rfl
  | cons a rest ih => simp [set_last_body, ih]

/-- Claim C1. The claim states that for every non-empty message sequence,
budget and resolver, the trimming performed by `append_message` yields a
suffix of the original sequence within the budget (length-1 suffixes
excepted). The code instead raises `TypeError` whenever any trimming is
needed, because `as_transcript_str` is called without `await` at
src/src/message_history.py:188 and `len()` is applied to the resulting
coroutine. This theorem evaluates the embedded trim loop at a concrete
failing input: two messages whose rendered length 24 exceeds the budget 10;
the loop pops the first message and then raises instead of returning a
trimmed suffix. -/
theorem C1_trim_raises_type_error :
    trim_loop null_usernames_mapper 10 [⟨1, "aaaaaaaaaa"⟩, ⟨2, "bbbbbbbbbb"⟩] =
      .raised .typeError [⟨2, "bbbbbbbbbb"⟩] := by
  rfl

/-- Claim C2. The claim states that the trim loop removes the oldest
message only while the total rendered length exceeds the budget AND more
than one message remains, so that trimming never empties the list. The
loop condition at src/src/message_history.py:185 is only
`history_len > max_conversation_characters`, with no `len(messages) > 1`
guard: on a history whose sole message exceeds the budget, the loop pops
that last remaining message — leaving the in-memory list empty — and then
raises `TypeError` from the un-awaited `as_transcript_str`. This theorem
evaluates the embedded loop at such an input (one message of rendered
length 13, budget 5). -/
theorem C2_trim_pops_last_message_then_raises :
    trim_loop null_usernames_mapper 5 [⟨1, "hello world"⟩] =
      .raised .typeError [] := by
  decide

/-- Claim C3. Trim is idempotent: running the trim loop of
`append_message` a second time on the outcome of a first run yields
exactly the outcome of the first run — when the first run returns a list
it is already within budget, so the second run removes nothing, and when
the first run raises, the exception propagates unchanged. -/
theorem C3_trim_idempotent (resolver : Int → String) (budget : Int)
    (msgs : List HistoryMessage) :
    trim_loop_twice resolver budget msgs = trim_loop resolver budget msgs := by
  unfold trim_loop_twice trim_loop
  by_cases h : (all_messages_transcript_len resolver msgs : Int) > budget
  · rw [if_pos h]
    cases msgs <;> rfl
  · rw [if_neg h]
    exact if_neg h

/-- Claim C4. Round-trip law: saving any `ConversationHistory` via
`save_conversation_history` and loading it back via
`get_conversation_history` for the same owner returns exactly the saved
history, field for field and in order. -/
theorem C4_save_load_roundtrip (store : Store) (h : ConversationHistory) :
    get_conversation_history (save_conversation_history store h)
      h.interacting_user_id = .ok (some h) := by
  unfold get_conversation_history save_conversation_history
  rw [if_pos rfl]
  simp [parseHistory_dict]

/-- Claim C5, counterexample. The claim states that loading the history of
an owner with no stored record returns a freshly initialized empty
`ConversationHistory` for that owner and never an absent value. On the
empty backend, `get_conversation_history` for owner 42 returns `None`
(embedded as `.ok none`), not the empty history `⟨42, []⟩`. -/
theorem C5_counterexample :
    get_conversation_history empty_store 42 ≠
      .ok (some (⟨42, []⟩ : ConversationHistory)) ∧
    get_conversation_history empty_store 42 = .ok none := by
  constructor
  · intro h
    rw [show get_conversation_history empty_store 42 = Except.ok none from rfl] at h
    simp at h
  · rfl

/-- Claim C5, amended. For an owner id with no stored record,
`get_conversation_history` returns `None` without raising; it is the
caller `append_message` (src/src/message_history.py:170-177) that turns
this `None` into a freshly initialized empty history carrying that owner's
id. -/
theorem C5_amended_absent_returns_none (store : Store) (uid : Int)
    (habsent : store (get_conversation_history_key uid) = none) :
    get_conversation_history store uid = .ok none ∧
    load_or_init store uid = .ok ⟨uid, []⟩ := by
  have h1 : get_conversation_history store uid = .ok none := by
    unfold get_conversation_history
    rw [habsent]
  refine ⟨h1, ?_⟩
  unfold load_or_init
  rw [h1]

/-- Witness for C5: the empty backend stores nothing under owner 42's key,
and the amended statement holds there. -/
theorem C5_amended_absent_returns_none_witness :
    get_conversation_history empty_store 42 = .ok none ∧
    load_or_init empty_store 42 = .ok ⟨42, []⟩ :=
  C5_amended_absent_returns_none empty_store 42 rfl

/-- Claim C6. `replace_last_body` on an empty history fails with
`EmptyHistory`; on a non-empty history it replaces only the final
message's body, leaving every earlier message, the final message's author
and the owner id unchanged. -/
theorem C6_replace_last_body_spec (h : ConversationHistory) (nb : String) :
    (h.messages = [] → replace_last_body h nb = .error .emptyHistory) ∧
    ∀ ms m, h.messages = ms ++ [m] →
      replace_last_body h nb =
        .ok ⟨h.interacting_user_id, ms ++ [⟨m.author_id, nb⟩]⟩ := by
  constructor
  · intro he
    unfold replace_last_body
    rw [he]
    rfl
  · intro ms m hm
    unfold replace_last_body
    rw [hm, set_last_body_append]

/-- Witness for C6: concrete empty and two-message histories. -/
theorem C6_replace_last_body_spec_witness :
    replace_last_body ⟨7, []⟩ "x" = .error .emptyHistory ∧
    replace_last_body ⟨7, [⟨1, "a"⟩, ⟨2, "b"⟩]⟩ "x" =
      .ok ⟨7, [⟨1, "a"⟩, ⟨2, "x"⟩]⟩ :=
  ⟨(C6_replace_last_body_spec ⟨7, []⟩ "x").1 rfl,
   (C6_replace_last_body_spec ⟨7, [⟨1, "a"⟩, ⟨2, "b"⟩]⟩ "x").2 [⟨1, "a"⟩] ⟨2, "b"⟩ rfl⟩

/-- Claim C7, counterexample. The claim states the data key is
`conversation-history:{owner_id}` and the lock key
`conversation-history:{owner_id}:lock`. The code
(src/src/message_history.py:115,124) inserts an extra
`interacting-user-id:` segment, so for owner 42 neither claimed key
matches. -/
theorem C7_counterexample :
    get_conversation_history_key 42 ≠ "conversation-history:42" ∧
    get_conversation_history_lock_key 42 ≠ "conversation-history:42:lock" := by
  decide

/-- Claim C7, amended. For every owner id the data key is
`conversation-history:interacting-user-id:{owner_id}` and the lock key is
that data key suffixed with `:lock`; shown structurally for all ids and
literally at owner 42. -/
theorem C7_amended_key_format :
    (∀ uid : Int, get_conversation_history_lock_key uid =
      get_conversation_history_key uid ++ ":lock") ∧
    get_conversation_history_key 42 = "conversation-history:interacting-user-id:42" ∧
    get_conversation_history_lock_key 42 =
      "conversation-history:interacting-user-id:42:lock" := by
  refine ⟨fun uid => ?_, by decide, by decide⟩
  simp [get_conversation_history_key, get_conversation_history_lock_key,
    String.append_assoc]

/-- Claim C8. Key derivation is collision-free: distinct owner ids give
distinct data keys and distinct lock keys, and a lock key never equals any
data key (for any pair of owners), because the decimal rendering of the
owner id is injective and never contains the `:` that precedes the `lock`
suffix. -/
theorem C8_keys_collision_free (a b : Int) :
    (a ≠ b → get_conversation_history_key a ≠ get_conversation_history_key b ∧
      get_conversation_history_lock_key a ≠ get_conversation_history_lock_key b) ∧
    get_conversation_history_lock_key a ≠ get_conversation_history_key b := by
  constructor
  · intro hab
    constructor
    · intro heq
      apply hab
      have hd := congrArg String.data heq
      rw [key_data, key_data] at hd
      exact pyIntChars_inj (List.append_cancel_left hd)
    · intro heq
      apply hab
      have hd := congrArg String.data heq
      rw [lock_key_data, lock_key_data] at hd
      have h2 := List.append_cancel_left hd
      exact pyIntChars_inj (List.append_cancel_right h2)
  · intro heq
    have hd := congrArg String.data heq
    rw [lock_key_data, key_data] at hd
    have h2 := List.append_cancel_left hd
    have hcolon : ':' ∈ pyIntChars b := by
      rw [← h2]
      exact List.mem_append_right _ (by decide)
    rcases pyIntChars_mem hcolon with h | ⟨h1, h2'⟩
    · exact absurd h (by decide)
    · have h58 : (':').toNat = 58 := rfl
      omega

/-- Witness for C8: owners 1 and 2 have distinct keys, and owner 1's lock
key differs from owner 2's data key. -/
theorem C8_keys_collision_free_witness :
    (get_conversation_history_key 1 ≠ get_conversation_history_key 2 ∧
      get_conversation_history_lock_key 1 ≠ get_conversation_history_lock_key 2) ∧
    get_conversation_history_lock_key 1 ≠ get_conversation_history_key 2 :=
  ⟨(C8_keys_collision_free 1 2).1 (by decide), (C8_keys_collision_free 1 2).2⟩

/-- Claim C10. With the no-op username resolver, which maps every identity
to the empty string, every message renders as `": "` followed by its body,
so each rendered line is exactly two characters longer than the body. -/
theorem C10_null_resolver_render (m : HistoryMessage) :
    as_transcript_str null_usernames_mapper m = ": " ++ m.body ∧
    (as_transcript_str null_usernames_mapper m).length = m.body.length + 2 := by
  constructor
  · simp [as_transcript_str, null_usernames_mapper]
  · simp [as_transcript_str, null_usernames_mapper, String.length_append,
      show (": ").length = 2 from rfl]
    omega
